import Mathlib

set_option maxRecDepth 8000

/-!
Verification development for the `awc` Go package (lus/awc.go): a client
library for the AWC Text Data Server.  The package is a query builder for
METAR requests (`METARQuery` and its chainable setters), a URL renderer
(`buildEndpoint` over the `endpoint` string type), and a one-shot
fetch-and-parse call (`GetMETAR`).

Modelling conventions of this shallow embedding:
* Go `float32` values are modelled as rationals (`ℚ`).  Every comparison and
  clamp performed by the source is exact on the concrete values appearing in
  the development, so the rational model is faithful there.
* Go `int64` / `int` are modelled as `Int`.
* Nil-able pointer fields (`*string`, `*float32`, ...) are modelled as
  `Option`; dereferencing a nil pointer (a Go runtime panic) is modelled by
  propagating `none`, so `buildEndpoint` returns `Option Endpoint`.
* The Go standard library effects (`http.Get`, `io.ReadAll`, `xml.Unmarshal`)
  are modelled as explicit function/value parameters of the fetch operation,
  with `Except` for their fallibility.
-/

namespace AWC

/-- Model of `keepFloatInRange` from `math.go`:
`if value <= min { return min }; if value >= max { return max }; return value`. -/
def keepFloatInRange (value min max : ℚ) : ℚ :=
  if value ≤ min then min
  else if value ≥ max then max
  else value

/-- Go's `type endpoint string`. -/
abbrev Endpoint := String

/-- The constant `endpointMETAR` from `endpoint.go`. -/
def endpointMETAR : Endpoint :=
  "https://aviationweather.gov/adds/dataserver_current/httpparam?dataSource=metars&requestType=retrieve&format=xml"

/-- `endpoint.addString`: `fmt.Sprintf("%s&%s=%s", end, key, value)`. -/
def addString (e : Endpoint) (key value : String) : Endpoint :=
  e ++ "&" ++ key ++ "=" ++ value

/-- `endpoint.addBool`: `fmt.Sprintf("%s&%s=%t", end, key, value)`. -/
def addBool (e : Endpoint) (key : String) (value : Bool) : Endpoint :=
  e ++ "&" ++ key ++ "=" ++ (if value then "true" else "false")

/-- `endpoint.addInt`: `fmt.Sprintf("%s&%s=%d", end, key, value)`. -/
def addInt (e : Endpoint) (key : String) (value : Int) : Endpoint :=
  e ++ "&" ++ key ++ "=" ++ toString value

/-- Pad a digit string on the left with zeros up to six characters, for the
fractional part of fmt's `%f` rendering. -/
def padSixDigits (s : String) : String :=
  String.mk (List.replicate (6 - s.length) '0') ++ s

/-- Model of fmt's `%f` verb at its default precision 6, over the rational
model of `float32`: sign, integer part, a dot, and exactly six fractional
digits.  Rounding at the sixth decimal is half-up here where Go rounds
half-even; the two agree on every value whose six-decimal expansion is exact,
which covers all values rendered in this development. -/
def formatFloat (q : ℚ) : String :=
  let sgn := if q.num < 0 then "-" else ""
  let scaled : Nat := (q.num.natAbs * 2000000 + q.den) / (2 * q.den)
  sgn ++ toString (scaled / 1000000) ++ "." ++ padSixDigits (toString (scaled % 1000000))

/-- `endpoint.addFloat`: `fmt.Sprintf("%s&%s=%f", end, key, value)`. -/
def addFloat (e : Endpoint) (key : String) (value : ℚ) : Endpoint :=
  e ++ "&" ++ key ++ "=" ++ formatFloat value

/-- Model of the `METARQuery` struct from `metar.go`: every pointer field is
an `Option`, the `fields` slice is a `List`. -/
structure METARQuery where
  station : Option String
  startTime : Option Int
  endTime : Option Int
  hoursBeforeNow : Option ℚ
  mostRecent : Option Bool
  mostRecentForEachStation : Option String
  rectMinLat : Option ℚ
  rectMinLon : Option ℚ
  rectMaxLat : Option ℚ
  rectMaxLon : Option ℚ
  radRadius : Option ℚ
  radLat : Option ℚ
  radLon : Option ℚ
  fields : List String

/-- The zero value `METARQuery{}`: all pointers nil, nil slice. -/
def emptyQuery : METARQuery :=
  ⟨none, none, none, none, none, none, none, none, none, none, none, none, none, []⟩

/-- `(*METARQuery).Station`. -/
def METARQuery.Station (query : METARQuery) (value : String) : METARQuery :=
  { query with station := some value }

/-- `(*METARQuery).Between`.  The Go setter receives two `time.Time` values
and stores `start.Unix()` and `end.Unix()`; the model receives the two unix
timestamps directly.  Clears `hoursBeforeNow`. -/
def METARQuery.Between (query : METARQuery) (startUnix endUnix : Int) : METARQuery :=
  { query with
    startTime := some startUnix
    endTime := some endUnix
    hoursBeforeNow := none }

/-- `(*METARQuery).HoursBeforeNow`: stores
`float32(math.Abs(float64(value)))` and clears the absolute time window. -/
def METARQuery.HoursBeforeNow (query : METARQuery) (value : ℚ) : METARQuery :=
  { query with
    hoursBeforeNow := some |value|
    startTime := none
    endTime := none }

/-- `(*METARQuery).MostRecent`: clears `mostRecentForEachStation`. -/
def METARQuery.MostRecent (query : METARQuery) (value : Bool) : METARQuery :=
  { query with
    mostRecent := some value
    mostRecentForEachStation := none }

/-- `(*METARQuery).MostRecentForEachStation`: clears `mostRecent`. -/
def METARQuery.MostRecentForEachStation (query : METARQuery) (value : String) : METARQuery :=
  { query with
    mostRecentForEachStation := some value
    mostRecent := none }

/-- `(*METARQuery).InRectangle`: clamps the four coordinates with
`keepFloatInRange` and clears the three radial fields. -/
def METARQuery.InRectangle (query : METARQuery) (minLat minLon maxLat maxLon : ℚ) :
    METARQuery :=
  { query with
    rectMinLat := some (keepFloatInRange minLat (-90) 90)
    rectMinLon := some (keepFloatInRange minLon (-180) 180)
    rectMaxLat := some (keepFloatInRange maxLat (-90) 90)
    rectMaxLon := some (keepFloatInRange maxLon (-180) 180)
    radRadius := none
    radLat := none
    radLon := none }

/-- `(*METARQuery).RadialDistance`: clamps `radius` to `[0,500]`, then maps a
resulting `0` to `1`, clamps `lat`/`lon`, and clears the four rectangle
fields. -/
def METARQuery.RadialDistance (query : METARQuery) (radius lat lon : ℚ) : METARQuery :=
  let radius := keepFloatInRange radius 0 500
  let radius := if radius = 0 then 1 else radius
  { query with
    radRadius := some radius
    radLat := some (keepFloatInRange lat (-90) 90)
    radLon := some (keepFloatInRange lon (-180) 180)
    rectMinLat := none
    rectMinLon := none
    rectMaxLat := none
    rectMaxLon := none }

/-- `(*METARQuery).Fields`: replaces the `fields` slice wholesale. -/
def METARQuery.Fields (query : METARQuery) (values : List String) : METARQuery :=
  { query with fields := values }

/-- The `query.station != nil` block of `buildEndpoint`. -/
def stationPart (query : METARQuery) (e : Endpoint) : Endpoint :=
  match query.station with
  | some v => addString e "stationString" v
  | none => e

/-- The `query.startTime != nil` block of `buildEndpoint`.  Go tests only
`startTime` and then dereferences `*query.endTime` unconditionally; a nil
`endTime` there is a runtime panic, modelled as `none`. -/
def timePart (query : METARQuery) (e : Endpoint) : Option Endpoint :=
  match query.startTime with
  | some st =>
    match query.endTime with
    | some en => some (addInt (addInt e "startTime" st) "endTime" en)
    | none => none
  | none => some e

/-- The `query.hoursBeforeNow != nil` block of `buildEndpoint`. -/
def hoursPart (query : METARQuery) (e : Endpoint) : Endpoint :=
  match query.hoursBeforeNow with
  | some v => addFloat e "hoursBeforeNow" v
  | none => e

/-- The `query.mostRecent != nil` block of `buildEndpoint`. -/
def mostRecentPart (query : METARQuery) (e : Endpoint) : Endpoint :=
  match query.mostRecent with
  | some v => addBool e "mostRecent" v
  | none => e

/-- The `query.mostRecentForEachStation != nil` block of `buildEndpoint`. -/
def mrfesPart (query : METARQuery) (e : Endpoint) : Endpoint :=
  match query.mostRecentForEachStation with
  | some v => addString e "mostRecentForEachStation" v
  | none => e

/-- The `query.rectMinLat != nil` block of `buildEndpoint`.  Go tests only
`rectMinLat` and dereferences the three sibling pointers unconditionally;
a nil sibling is a runtime panic, modelled as `none`. -/
def rectPart (query : METARQuery) (e : Endpoint) : Option Endpoint :=
  match query.rectMinLat with
  | some minLat =>
    match query.rectMinLon, query.rectMaxLat, query.rectMaxLon with
    | some minLon, some maxLat, some maxLon =>
      some (addFloat (addFloat (addFloat (addFloat e "minLat" minLat)
        "minLon" minLon) "maxLat" maxLat) "maxLon" maxLon)
    | _, _, _ => none
  | none => some e

/-- The `query.radRadius != nil` block of `buildEndpoint`:
`fmt.Sprintf("%f;%f,%f", *query.radRadius, *query.radLon, *query.radLat)`,
longitude written before latitude.  Go tests only `radRadius` and
dereferences the two sibling pointers unconditionally; a nil sibling is a
runtime panic, modelled as `none`. -/
def radialPart (query : METARQuery) (e : Endpoint) : Option Endpoint :=
  match query.radRadius with
  | some r =>
    match query.radLon, query.radLat with
    | some lon, some lat =>
      some (addString e "radialDistance"
        (formatFloat r ++ ";" ++ formatFloat lon ++ "," ++ formatFloat lat))
    | _, _ => none
  | none => some e

/-- The `len(query.fields) > 0` block of `buildEndpoint`:
`strings.Join(query.fields, ",")`. -/
def fieldsPart (query : METARQuery) (e : Endpoint) : Endpoint :=
  if query.fields.length > 0 then addString e "fields" (String.intercalate "," query.fields)
  else e

/-- `(*METARQuery).buildEndpoint`: the eight blocks in source order, starting
from `endpointMETAR`.  `none` means the Go original would have panicked on a
nil pointer dereference. -/
def buildEndpoint (query : METARQuery) : Option Endpoint :=
  (timePart query (stationPart query endpointMETAR)).bind fun e1 =>
    (rectPart query (mrfesPart query (mostRecentPart query (hoursPart query e1)))).bind
      fun e2 => (radialPart query e2).map fun e3 => fieldsPart query e3

/-- Model of the `METARQualityControlFlags` struct. -/
structure METARQualityControlFlags where
  Corrected : Bool
  Auto : Bool
  AutoStation : Bool
  MaintenanceIndicator : Bool
  NoSignal : Bool
  LightningSensorOff : Bool
  FreezingRainSensorOff : Bool
  PresentWeatherSensorOff : Bool
deriving Inhabited

/-- Model of the `METARSkyCondition` struct. -/
structure METARSkyCondition where
  SkyCover : String
  CloudBaseFTAGL : Int
deriving Inhabited

/-- Model of the `METAR` struct: one record of the response, `float32` fields
as `ℚ`, `int` fields as `Int`. -/
structure METAR where
  RawText : String
  StationID : String
  ObservationTime : String
  Latitude : ℚ
  Longitude : ℚ
  AirTempC : ℚ
  DewPointC : ℚ
  WindDirDegrees : Int
  WindSpeedKT : Int
  WindGustKT : Int
  VisibilityStatuteMI : ℚ
  AltimeterInHG : ℚ
  SeaLevelPressureMB : ℚ
  QualityControlFlags : METARQualityControlFlags
  WXString : String
  SkyConditions : List METARSkyCondition
  FlightCategory : String
  ThreeHRPressureTendencyMB : ℚ
  MaxAirTemp6HC : ℚ
  MinAirTemp6HC : ℚ
  MaxAirTemp24HC : ℚ
  MinAirTemp24HC : ℚ
  PrecipitationIN : ℚ
  Precipitation3HIN : ℚ
  Precipitation6HIN : ℚ
  Precipitation24HIN : ℚ
  SnowDepthIN : ℚ
  VerticalVisibilityFT : Int
  METARType : String
  ElevationM : ℚ
deriving Inhabited

/-- Model of the `METARResponse` struct: the error list, warning list and
record list deserialized from the XML body. -/
structure METARResponse where
  Errors : List String
  Warnings : List String
  METARs : List METAR
deriving Inhabited

/-- Model of the part of Go's `http.Response` that `GetMETAR` looks at: the
status code, and the body whose read (`io.ReadAll`) may itself fail. -/
structure HTTPResp where
  statusCode : Int
  body : Except String String

/-- The errors `GetMETAR` can return, one constructor per `return nil, err`
site: the `http.Get` error, the constructed unexpected-status error, the
`io.ReadAll` error and the `xml.Unmarshal` error. -/
inductive FetchError where
  | transport (message : String)
  | unexpectedStatus (code : Int)
  | readBody (message : String)
  | decode (message : String)

/-- The `Error()` string of each modelled error; the unexpected-status case
is `errors.New(fmt.Sprintf("unexpected status code: %d", httpResponse.StatusCode))`. -/
def FetchError.message : FetchError → String
  | .transport m => m
  | .unexpectedStatus c => "unexpected status code: " ++ toString c
  | .readBody m => m
  | .decode m => m

/-- The body of `GetMETAR` after the URL has been built: `http.Get`, the
status-code guard, `io.ReadAll`, `xml.Unmarshal`.  The two Go standard
library effects are passed in as explicit functions: `get` models
`http.Get` (transport failure or an `HTTPResp`), `unmarshal` models
`xml.Unmarshal` into a `METARResponse`. -/
def fetchAndParse (url : String) (get : String → Except String HTTPResp)
    (unmarshal : String → Except String METARResponse) :
    Except FetchError METARResponse :=
  match get url with
  | .error e => .error (.transport e)
  | .ok httpResponse =>
    if httpResponse.statusCode < 200 ∨ httpResponse.statusCode > 299 then
      .error (.unexpectedStatus httpResponse.statusCode)
    else
      match httpResponse.body with
      | .error e => .error (.readBody e)
      | .ok body =>
        match unmarshal body with
        | .error e => .error (.decode e)
        | .ok response => .ok response

/-- `GetMETAR`: build the URL from the query, then fetch and parse.  The
outer `none` is the nil-pointer panic propagated out of `buildEndpoint`. -/
def GetMETAR (query : METARQuery) (get : String → Except String HTTPResp)
    (unmarshal : String → Except String METARResponse) :
    Option (Except FetchError METARResponse) :=
  (buildEndpoint query).map fun url => fetchAndParse url get unmarshal

/-- One call to a public setter of the builder, used to describe the states
reachable through any sequence of setter calls. -/
inductive SetterCall where
  | station (value : String)
  | between (startUnix endUnix : Int)
  | hoursBeforeNow (value : ℚ)
  | mostRecent (value : Bool)
  | mostRecentForEachStation (value : String)
  | inRectangle (minLat minLon maxLat maxLon : ℚ)
  | radialDistance (radius lat lon : ℚ)
  | fields (values : List String)

/-- Apply one setter call to a builder state. -/
def applyCall (query : METARQuery) : SetterCall → METARQuery
  | .station v => query.Station v
  | .between s e => query.Between s e
  | .hoursBeforeNow v => query.HoursBeforeNow v
  | .mostRecent v => query.MostRecent v
  | .mostRecentForEachStation v => query.MostRecentForEachStation v
  | .inRectangle a b c d => query.InRectangle a b c d
  | .radialDistance r la lo => query.RadialDistance r la lo
  | .fields vs => query.Fields vs

/-- Apply a sequence of setter calls, left to right. -/
def applyCalls (query : METARQuery) (calls : List SetterCall) : METARQuery :=
  calls.foldl applyCall query

/-- At most one member of each mutually-exclusive constraint group is set:
the absolute time window against hours-before-now, most-recent against
most-recent-for-each-station, and the rectangle against the radial filter. -/
def mutuallyExclusive (query : METARQuery) : Prop :=
  ((query.startTime = none ∧ query.endTime = none) ∨ query.hoursBeforeNow = none) ∧
  (query.mostRecent = none ∨ query.mostRecentForEachStation = none) ∧
  ((query.rectMinLat = none ∧ query.rectMinLon = none ∧
    query.rectMaxLat = none ∧ query.rectMaxLon = none) ∨
   (query.radRadius = none ∧ query.radLat = none ∧ query.radLon = none))

/-- Within each multi-field group, the fields are all set or all unset:
`startTime` with `endTime`, the four rectangle coordinates together, the
three radial fields together. -/
def groupsAligned (query : METARQuery) : Prop :=
  (query.startTime.isSome = query.endTime.isSome) ∧
  (query.rectMinLat.isSome = query.rectMinLon.isSome ∧
   query.rectMinLat.isSome = query.rectMaxLat.isSome ∧
   query.rectMinLat.isSome = query.rectMaxLon.isSome) ∧
  (query.radRadius.isSome = query.radLon.isSome ∧
   query.radRadius.isSome = query.radLat.isSome)

/-! Helper lemmas shared by the claim theorems. -/

/-- `keepFloatInRange` is the usual two-sided clamp. -/
lemma keepFloatInRange_eq_clamp (value lo hi : ℚ) (h : lo ≤ hi) :
    keepFloatInRange value lo hi = max lo (min hi value) := by
  unfold keepFloatInRange
  split_ifs with h1 h2
  · rw [min_eq_right (le_trans h1 h), max_eq_left h1]
  · rw [min_eq_left h2, max_eq_right h]
  · rw [min_eq_right (le_of_not_le h2), max_eq_right (le_of_not_le h1)]

lemma formatFloat_eval (q : ℚ) (n : ℤ) (d : ℕ) (hn : q.num = n) (hd : q.den = d) :
    formatFloat q =
      (if n < 0 then "-" else "") ++
        toString ((n.natAbs * 2000000 + d) / (2 * d) / 1000000) ++ "." ++
        padSixDigits (toString ((n.natAbs * 2000000 + d) / (2 * d) % 1000000)) := by
  rw [formatFloat, hn, hd]

/-- `formatFloat` on an integral rational: sign, the digits, six zeros. -/
lemma formatFloat_int (n : ℤ) :
    formatFloat (n : ℚ) =
      (if n < 0 then "-" else "") ++ toString n.natAbs ++ ".000000" := by
  rw [formatFloat_eval (n : ℚ) n 1 (Rat.num_intCast n) (Rat.den_intCast n)]
  have h1 : (n.natAbs * 2000000 + 1) / (2 * 1) / 1000000 = n.natAbs := by omega
  have h2 : (n.natAbs * 2000000 + 1) / (2 * 1) % 1000000 = 0 := by omega
  have h3 : padSixDigits (toString (0 : ℕ)) = "000000" := by decide
  rw [h1, h2, h3, String.append_assoc]
  have h4 : ("." : String) ++ "000000" = ".000000" := by decide
  rw [h4]

lemma formatFloat_one : formatFloat 1 = "1.000000" := by
  have h : (1 : ℚ) = ((1 : ℤ) : ℚ) := by norm_num
  rw [h, formatFloat_int]; decide

lemma formatFloat_two : formatFloat 2 = "2.000000" := by
  have h : (2 : ℚ) = ((2 : ℤ) : ℚ) := by norm_num
  rw [h, formatFloat_int]; decide

lemma formatFloat_three : formatFloat 3 = "3.000000" := by
  have h : (3 : ℚ) = ((3 : ℤ) : ℚ) := by norm_num
  rw [h, formatFloat_int]; decide

lemma formatFloat_four : formatFloat 4 = "4.000000" := by
  have h : (4 : ℚ) = ((4 : ℤ) : ℚ) := by norm_num
  rw [h, formatFloat_int]; decide

lemma formatFloat_fortyfive : formatFloat 45 = "45.000000" := by
  have h : (45 : ℚ) = ((45 : ℤ) : ℚ) := by norm_num
  rw [h, formatFloat_int]; decide

lemma formatFloat_ninety : formatFloat 90 = "90.000000" := by
  have h : (90 : ℚ) = ((90 : ℤ) : ℚ) := by norm_num
  rw [h, formatFloat_int]; decide

lemma formatFloat_negNinety : formatFloat (-90) = "-90.000000" := by
  have h : (-90 : ℚ) = ((-90 : ℤ) : ℚ) := by norm_num
  rw [h, formatFloat_int]; decide

lemma formatFloat_oneEighty : formatFloat 180 = "180.000000" := by
  have h : (180 : ℚ) = ((180 : ℤ) : ℚ) := by norm_num
  rw [h, formatFloat_int]; decide

lemma formatFloat_negOneEighty : formatFloat (-180) = "-180.000000" := by
  have h : (-180 : ℚ) = ((-180 : ℤ) : ℚ) := by norm_num
  rw [h, formatFloat_int]; decide

/-- Each setter preserves the mutual-exclusion invariant.  Each case is
definitional: the setter either leaves a group untouched or pins the
competing members of its group to `none`. -/
lemma mutuallyExclusive_step (query : METARQuery) (c : SetterCall)
    (h : mutuallyExclusive query) : mutuallyExclusive (applyCall query c) := by
  obtain ⟨h1, h2, h3⟩ := h
  cases c with
  | station v => exact ⟨h1, h2, h3⟩
  | between s e => exact ⟨Or.inr rfl, h2, h3⟩
  | hoursBeforeNow v => exact ⟨Or.inl ⟨rfl, rfl⟩, h2, h3⟩
  | mostRecent v => exact ⟨h1, Or.inr rfl, h3⟩
  | mostRecentForEachStation v => exact ⟨h1, Or.inl rfl, h3⟩
  | inRectangle a b c d => exact ⟨h1, h2, Or.inr ⟨rfl, rfl, rfl⟩⟩
  | radialDistance r la lo => exact ⟨h1, h2, Or.inl ⟨rfl, rfl, rfl, rfl⟩⟩
  | fields vs => exact ⟨h1, h2, h3⟩

/-- Each setter preserves the all-or-none alignment of the multi-field
groups: a setter writes either every member of a group or none of them. -/
lemma groupsAligned_step (query : METARQuery) (c : SetterCall)
    (h : groupsAligned query) : groupsAligned (applyCall query c) := by
  obtain ⟨h1, ⟨h2a, h2b, h2c⟩, h3a, h3b⟩ := h
  cases c with
  | station v => exact ⟨h1, ⟨h2a, h2b, h2c⟩, h3a, h3b⟩
  | between s e => exact ⟨rfl, ⟨h2a, h2b, h2c⟩, h3a, h3b⟩
  | hoursBeforeNow v => exact ⟨rfl, ⟨h2a, h2b, h2c⟩, h3a, h3b⟩
  | mostRecent v => exact ⟨h1, ⟨h2a, h2b, h2c⟩, h3a, h3b⟩
  | mostRecentForEachStation v => exact ⟨h1, ⟨h2a, h2b, h2c⟩, h3a, h3b⟩
  | inRectangle a b c d => exact ⟨h1, ⟨rfl, rfl, rfl⟩, rfl, rfl⟩
  | radialDistance r la lo => exact ⟨h1, ⟨rfl, rfl, rfl⟩, rfl, rfl⟩
  | fields vs => exact ⟨h1, ⟨h2a, h2b, h2c⟩, h3a, h3b⟩

/-- A property preserved by every setter holds after every call sequence. -/
lemma applyCalls_preserves (P : METARQuery → Prop)
    (step : ∀ q c, P q → P (applyCall q c)) :
    ∀ (calls : List SetterCall) (q : METARQuery), P q → P (applyCalls q calls) := by
  intro calls
  induction calls with
  | nil => intro q h; exact h
  | cons c rest ih =>
    intro q h
    exact ih (applyCall q c) (step q c h)

lemma timePart_isSome (query : METARQuery) (e : Endpoint)
    (h : query.startTime.isSome = query.endTime.isSome) : (timePart query e).isSome := by
  unfold timePart
  cases hst : query.startTime <;> cases hen : query.endTime <;> simp_all

lemma rectPart_isSome (query : METARQuery) (e : Endpoint)
    (h1 : query.rectMinLat.isSome = query.rectMinLon.isSome)
    (h2 : query.rectMinLat.isSome = query.rectMaxLat.isSome)
    (h3 : query.rectMinLat.isSome = query.rectMaxLon.isSome) :
    (rectPart query e).isSome := by
  unfold rectPart
  cases ha : query.rectMinLat <;> cases hb : query.rectMinLon <;>
    cases hc : query.rectMaxLat <;> cases hd : query.rectMaxLon <;> simp_all

lemma radialPart_isSome (query : METARQuery) (e : Endpoint)
    (h1 : query.radRadius.isSome = query.radLon.isSome)
    (h2 : query.radRadius.isSome = query.radLat.isSome) :
    (radialPart query e).isSome := by
  unfold radialPart
  cases ha : query.radRadius <;> cases hb : query.radLon <;>
    cases hc : query.radLat <;> simp_all

/-- On a state whose groups are aligned, `buildEndpoint` reaches the end of
the function: no nil pointer is dereferenced. -/
lemma buildEndpoint_isSome (query : METARQuery) (h : groupsAligned query) :
    (buildEndpoint query).isSome := by
  obtain ⟨h1, ⟨h2a, h2b, h2c⟩, h3a, h3b⟩ := h
  unfold buildEndpoint
  obtain ⟨e1, he1⟩ := Option.isSome_iff_exists.mp
    (timePart_isSome query (stationPart query endpointMETAR) h1)
  rw [he1, Option.some_bind]
  obtain ⟨e2, he2⟩ := Option.isSome_iff_exists.mp
    (rectPart_isSome query (mrfesPart query (mostRecentPart query (hoursPart query e1)))
      h2a h2b h2c)
  rw [he2, Option.some_bind]
  obtain ⟨e3, he3⟩ := Option.isSome_iff_exists.mp
    (radialPart_isSome query e2 h3a h3b)
  rw [he3]
  simp

/-- `listStartsWith s p`: the character list `s` begins with the pattern `p`. -/
def listStartsWith : List Char → List Char → Bool
  | _, [] => true
  | [], _ :: _ => false
  | a :: as, b :: bs => a = b && listStartsWith as bs

/-- Number of positions of a character list at which the pattern occurs. -/
def countSubstrAux (pat : List Char) : List Char → Nat
  | [] => 0
  | c :: rest => (if listStartsWith (c :: rest) pat then 1 else 0) + countSubstrAux pat rest

/-- Number of positions of `s` at which the non-empty pattern `pat` occurs. -/
def countSubstr (s pat : String) : Nat := countSubstrAux pat.data s.data

/-! The claim theorems. -/

/-- Claim C1: every builder state reachable through any sequence of setter
calls has at most one member of each mutually-exclusive constraint group
set, and each setter clears the competing members of its own group:
`Between` clears `hoursBeforeNow`, `HoursBeforeNow` clears
`startTime`/`endTime`, `MostRecent` clears `mostRecentForEachStation` and
vice versa, `InRectangle` clears the three radial fields and
`RadialDistance` clears the four rectangle fields. -/
theorem reachable_states_mutually_exclusive :
    (∀ calls : List SetterCall, mutuallyExclusive (applyCalls emptyQuery calls)) ∧
    (∀ (q : METARQuery) (s e : Int), (q.Between s e).hoursBeforeNow = none) ∧
    (∀ (q : METARQuery) (v : ℚ),
      (q.HoursBeforeNow v).startTime = none ∧ (q.HoursBeforeNow v).endTime = none) ∧
    (∀ (q : METARQuery) (v : Bool), (q.MostRecent v).mostRecentForEachStation = none) ∧
    (∀ (q : METARQuery) (v : String), (q.MostRecentForEachStation v).mostRecent = none) ∧
    (∀ (q : METARQuery) (a b c d : ℚ),
      (q.InRectangle a b c d).radRadius = none ∧ (q.InRectangle a b c d).radLat = none ∧
        (q.InRectangle a b c d).radLon = none) ∧
    (∀ (q : METARQuery) (r la lo : ℚ),
      (q.RadialDistance r la lo).rectMinLat = none ∧
        (q.RadialDistance r la lo).rectMinLon = none ∧
        (q.RadialDistance r la lo).rectMaxLat = none ∧
        (q.RadialDistance r la lo).rectMaxLon = none) := by
  exact ⟨fun calls => applyCalls_preserves mutuallyExclusive mutuallyExclusive_step
    calls emptyQuery ⟨Or.inr rfl, Or.inl rfl, Or.inl ⟨rfl, rfl, rfl, rfl⟩⟩,
    fun q s e => rfl,
    fun q v => ⟨rfl, rfl⟩,
    fun q v => rfl,
    fun q v => rfl,
    fun q a b c d => ⟨rfl, rfl, rfl⟩,
    fun q r la lo => ⟨rfl, rfl, rfl, rfl⟩⟩

/-- Claim C10: on every builder state reachable through the public setters,
the pointer fields within each multi-field group are all `none` or all
`some` (`startTime` with `endTime`, the four rectangle coordinates, the
three radial fields), and `buildEndpoint` therefore runs to completion
without dereferencing a nil pointer (its result is `some`). -/
theorem reachable_states_no_nil_deref :
    ∀ calls : List SetterCall,
      groupsAligned (applyCalls emptyQuery calls) ∧
      (buildEndpoint (applyCalls emptyQuery calls)).isSome := by
  intro calls
  have h := applyCalls_preserves groupsAligned groupsAligned_step calls emptyQuery
    ⟨rfl, ⟨rfl, rfl, rfl⟩, rfl, rfl⟩
  exact ⟨h, buildEndpoint_isSome _ h⟩

/-- Claim C4: `HoursBeforeNow` stores the absolute value of its argument, so
for positive `h` the calls `HoursBeforeNow (-h)` and `HoursBeforeNow h` on
the same builder produce identical rendered query URLs. -/
theorem hoursBeforeNow_abs_normalization (q : METARQuery) (h : ℚ) (hpos : 0 < h) :
    buildEndpoint (q.HoursBeforeNow (-h)) = buildEndpoint (q.HoursBeforeNow h) ∧
    (q.HoursBeforeNow h).hoursBeforeNow = some |h| ∧
    (q.HoursBeforeNow (-h)).hoursBeforeNow = some |h| := by
  have hq : q.HoursBeforeNow (-h) = q.HoursBeforeNow h := by
    simp [METARQuery.HoursBeforeNow, abs_neg]
  refine ⟨by rw [hq], by simp [METARQuery.HoursBeforeNow], ?_⟩
  rw [hq]
  simp [METARQuery.HoursBeforeNow]

/-- Witness for claim C4 at `h = 3` on the empty builder. -/
theorem hoursBeforeNow_abs_normalization_witness :
    (0 : ℚ) < 3 ∧
      buildEndpoint (emptyQuery.HoursBeforeNow (-3)) =
        buildEndpoint (emptyQuery.HoursBeforeNow 3) :=
  ⟨by norm_num, (hoursBeforeNow_abs_normalization emptyQuery 3 (by norm_num)).1⟩

/-- Claim C8: `Fields` replaces the field-restriction list wholesale rather
than appending, and rendering a query whose fields are
`["raw_text", "station_id"]` produces the segment
`fields=raw_text,station_id` exactly once, comma-joined with no trailing
separator. -/
theorem fields_replace_and_render :
    (∀ (q : METARQuery) (vs : List String), (q.Fields vs).fields = vs) ∧
    (∀ (q : METARQuery) (vs1 vs2 : List String), ((q.Fields vs1).Fields vs2).fields = vs2) ∧
    buildEndpoint (emptyQuery.Fields ["raw_text", "station_id"]) =
      some (endpointMETAR ++ "&fields=raw_text,station_id") ∧
    countSubstr (endpointMETAR ++ "&fields=raw_text,station_id") "fields=" = 1 := by
  refine ⟨fun q vs => rfl, fun q vs1 vs2 => rfl, rfl, rfl⟩

/-- Claim C3: `RadialDistance` first clamps the radius to `[0,500]` (values
below `0` raised to `0`, values above `500` lowered to `500`) and then maps
a resulting radius of exactly `0` to `1`; both `RadialDistance 0 lat lon`
and `RadialDistance (-10) 45 45` store and render radius `1`; latitude and
longitude are clamped to `[-90,90]` and `[-180,180]`. -/
theorem radialDistance_radius_clamp (q : METARQuery) (r lat lon : ℚ) :
    (q.RadialDistance r lat lon).radRadius =
      some (if max 0 (min 500 r) = 0 then 1 else max 0 (min 500 r)) ∧
    (q.RadialDistance r lat lon).radLat = some (max (-90) (min 90 lat)) ∧
    (q.RadialDistance r lat lon).radLon = some (max (-180) (min 180 lon)) ∧
    (q.RadialDistance 0 lat lon).radRadius = some 1 ∧
    (q.RadialDistance (-10) 45 45).radRadius = some 1 ∧
    buildEndpoint (emptyQuery.RadialDistance (-10) 45 45) =
      some (endpointMETAR ++ "&radialDistance=1.000000;45.000000,45.000000") := by
  have hrad : (q.RadialDistance r lat lon).radRadius =
      some (if keepFloatInRange r 0 500 = 0 then 1 else keepFloatInRange r 0 500) := rfl
  have hlat : (q.RadialDistance r lat lon).radLat =
      some (keepFloatInRange lat (-90) 90) := rfl
  have hlon : (q.RadialDistance r lat lon).radLon =
      some (keepFloatInRange lon (-180) 180) := rfl
  refine ⟨?_, ?_, ?_, ?_, ?_, ?_⟩
  · rw [hrad, keepFloatInRange_eq_clamp r 0 500 (by norm_num)]
  · rw [hlat, keepFloatInRange_eq_clamp lat (-90) 90 (by norm_num)]
  · rw [hlon, keepFloatInRange_eq_clamp lon (-180) 180 (by norm_num)]
  · have h0 : (q.RadialDistance 0 lat lon).radRadius =
        some (if keepFloatInRange 0 0 500 = 0 then 1 else keepFloatInRange 0 0 500) := rfl
    rw [h0]
    norm_num [keepFloatInRange]
  · have h0 : (q.RadialDistance (-10) 45 45).radRadius =
        some (if keepFloatInRange (-10) 0 500 = 0 then 1 else keepFloatInRange (-10) 0 500) :=
      rfl
    rw [h0]
    norm_num [keepFloatInRange]
  · simp only [buildEndpoint, METARQuery.RadialDistance, emptyQuery, stationPart, timePart,
      hoursPart, mostRecentPart, mrfesPart, rectPart, radialPart, fieldsPart]
    norm_num [keepFloatInRange]
    rw [formatFloat_one, formatFloat_fortyfive]
    rfl

/-- Claim C5: `InRectangle` clamps each of the four coordinates
independently, latitudes to `[-90,90]` and longitudes to `[-180,180]`, so
`InRectangle (-200) (-300) 200 300` stores and renders `minLat=-90`,
`minLon=-180`, `maxLat=90`, `maxLon=180`. -/
theorem inRectangle_coordinate_clamp (q : METARQuery) (a b c d : ℚ) :
    (q.InRectangle a b c d).rectMinLat = some (max (-90) (min 90 a)) ∧
    (q.InRectangle a b c d).rectMinLon = some (max (-180) (min 180 b)) ∧
    (q.InRectangle a b c d).rectMaxLat = some (max (-90) (min 90 c)) ∧
    (q.InRectangle a b c d).rectMaxLon = some (max (-180) (min 180 d)) ∧
    (q.InRectangle (-200) (-300) 200 300).rectMinLat = some (-90) ∧
    (q.InRectangle (-200) (-300) 200 300).rectMinLon = some (-180) ∧
    (q.InRectangle (-200) (-300) 200 300).rectMaxLat = some 90 ∧
    (q.InRectangle (-200) (-300) 200 300).rectMaxLon = some 180 ∧
    buildEndpoint (emptyQuery.InRectangle (-200) (-300) 200 300) =
      some (endpointMETAR ++
        "&minLat=-90.000000&minLon=-180.000000&maxLat=90.000000&maxLon=180.000000") := by
  refine ⟨?_, ?_, ?_, ?_, ?_, ?_, ?_, ?_, ?_⟩
  · rw [show (q.InRectangle a b c d).rectMinLat = some (keepFloatInRange a (-90) 90) from rfl,
      keepFloatInRange_eq_clamp a (-90) 90 (by norm_num)]
  · rw [show (q.InRectangle a b c d).rectMinLon = some (keepFloatInRange b (-180) 180) from rfl,
      keepFloatInRange_eq_clamp b (-180) 180 (by norm_num)]
  · rw [show (q.InRectangle a b c d).rectMaxLat = some (keepFloatInRange c (-90) 90) from rfl,
      keepFloatInRange_eq_clamp c (-90) 90 (by norm_num)]
  · rw [show (q.InRectangle a b c d).rectMaxLon = some (keepFloatInRange d (-180) 180) from rfl,
      keepFloatInRange_eq_clamp d (-180) 180 (by norm_num)]
  · rw [show (q.InRectangle (-200) (-300) 200 300).rectMinLat =
        some (keepFloatInRange (-200) (-90) 90) from rfl]
    norm_num [keepFloatInRange]
  · rw [show (q.InRectangle (-200) (-300) 200 300).rectMinLon =
        some (keepFloatInRange (-300) (-180) 180) from rfl]
    norm_num [keepFloatInRange]
  · rw [show (q.InRectangle (-200) (-300) 200 300).rectMaxLat =
        some (keepFloatInRange 200 (-90) 90) from rfl]
    norm_num [keepFloatInRange]
  · rw [show (q.InRectangle (-200) (-300) 200 300).rectMaxLon =
        some (keepFloatInRange 300 (-180) 180) from rfl]
    norm_num [keepFloatInRange]
  · simp only [buildEndpoint, METARQuery.InRectangle, emptyQuery, stationPart, timePart,
      hoursPart, mostRecentPart, mrfesPart, rectPart, radialPart, fieldsPart]
    norm_num [keepFloatInRange]
    simp only [addFloat]
    rw [formatFloat_negNinety, formatFloat_negOneEighty, formatFloat_ninety,
      formatFloat_oneEighty]
    rfl

/-- `addString` appends one `&key=value` segment. -/
lemma addString_decomp (e key v : String) :
    addString e key v = e ++ ("&" ++ key ++ "=" ++ v) := by
  unfold addString
  simp [String.append_assoc]

/-- Claim C7: with a radial filter set, rendering produces one composite
parameter `radialDistance=radius;lon,lat` — the radius, a semicolon, the
longitude, a comma, the latitude — with longitude written before latitude
even though the setter takes `(radius, lat, lon)`. -/
theorem radialDistance_renders_lon_before_lat :
    (∀ (q : METARQuery) (r lon lat : ℚ) (s : Endpoint),
      q.radRadius = some r → q.radLon = some lon → q.radLat = some lat →
      q.fields = [] → buildEndpoint q = some s →
      ∃ pre, s = pre ++ "&radialDistance=" ++
        (formatFloat r ++ ";" ++ formatFloat lon ++ "," ++ formatFloat lat)) ∧
    (∀ (q : METARQuery) (r lat lon : ℚ),
      (q.RadialDistance r lat lon).radLat = some (keepFloatInRange lat (-90) 90) ∧
      (q.RadialDistance r lat lon).radLon = some (keepFloatInRange lon (-180) 180)) ∧
    buildEndpoint (emptyQuery.RadialDistance 2 3 4) =
      some (endpointMETAR ++ "&radialDistance=2.000000;4.000000,3.000000") := by
  refine ⟨?_, fun q r lat lon => ⟨rfl, rfl⟩, ?_⟩
  · intro q r lon lat s hr hlon hlat hf hs
    unfold buildEndpoint at hs
    obtain ⟨e1, he1, hs⟩ := Option.bind_eq_some.mp hs
    obtain ⟨e2, he2, hs⟩ := Option.bind_eq_some.mp hs
    obtain ⟨e3, he3, hs⟩ := Option.map_eq_some'.mp hs
    unfold radialPart at he3
    rw [hr, hlon, hlat] at he3
    unfold fieldsPart at hs
    rw [hf] at hs
    simp only [List.length_nil, gt_iff_lt, lt_self_iff_false, if_false] at hs
    refine ⟨e2, ?_⟩
    rw [← hs, ← Option.some_inj.mp he3, addString_decomp]
    have hkey : ("&" : String) ++ "radialDistance" ++ "=" = "&radialDistance=" := rfl
    rw [← hkey]
    simp [String.append_assoc]
  · simp only [buildEndpoint, METARQuery.RadialDistance, emptyQuery, stationPart, timePart,
      hoursPart, mostRecentPart, mrfesPart, rectPart, radialPart, fieldsPart]
    norm_num [keepFloatInRange]
    rw [formatFloat_two, formatFloat_three, formatFloat_four]
    rfl

/-- Witness for claim C7: the rendered URL of `RadialDistance 2 3 4`
(radius 2, latitude 3, longitude 4) decomposes around
`radius;lon,lat` = `2.000000;4.000000,3.000000`. -/
theorem radialDistance_renders_lon_before_lat_witness :
    ∃ pre, endpointMETAR ++ "&radialDistance=2.000000;4.000000,3.000000" =
      pre ++ "&radialDistance=" ++
        (formatFloat 2 ++ ";" ++ formatFloat 4 ++ "," ++ formatFloat 3) := by
  refine radialDistance_renders_lon_before_lat.1 (emptyQuery.RadialDistance 2 3 4) 2 4 3 _
    ?_ ?_ ?_ rfl radialDistance_renders_lon_before_lat.2.2
  · show some (if keepFloatInRange 2 0 500 = 0 then 1 else keepFloatInRange 2 0 500) = some 2
    norm_num [keepFloatInRange]
  · show some (keepFloatInRange 4 (-180) 180) = some 4
    norm_num [keepFloatInRange]
  · show some (keepFloatInRange 3 (-90) 90) = some 3
    norm_num [keepFloatInRange]

/-- With a built URL, `GetMETAR` is `fetchAndParse` on that URL. -/
lemma getMETAR_eq_fetchAndParse (query : METARQuery) (url : String)
    (get : String → Except String HTTPResp)
    (unmarshal : String → Except String METARResponse)
    (hurl : buildEndpoint query = some url) :
    GetMETAR query get unmarshal = some (fetchAndParse url get unmarshal) := by
  unfold GetMETAR
  rw [hurl]
  rfl

/-- After a received response, `fetchAndParse` is the status guard followed
by the body read and the decode. -/
lemma fetchAndParse_of_get (url : String) (get : String → Except String HTTPResp)
    (unmarshal : String → Except String METARResponse) (r : HTTPResp)
    (hget : get url = .ok r) :
    fetchAndParse url get unmarshal =
      if r.statusCode < 200 ∨ r.statusCode > 299 then
        Except.error (FetchError.unexpectedStatus r.statusCode)
      else
        match r.body with
        | .error e => Except.error (FetchError.readBody e)
        | .ok body =>
          match unmarshal body with
          | .error e => Except.error (FetchError.decode e)
          | .ok response => Except.ok response := by
  unfold fetchAndParse
  rw [hget]

/-- Claim C2: with a response received, `GetMETAR` fails with the
unexpected-status error exactly when the status code is outside `[200,299]`;
the error carries the numeric status code (and renders it in its message),
the result then depends on nothing but the status code — the body is not
read and not parsed — and no response value is returned. -/
theorem getMETAR_unexpected_status (query : METARQuery) (url : String)
    (get : String → Except String HTTPResp)
    (unmarshal : String → Except String METARResponse) (r : HTTPResp)
    (hurl : buildEndpoint query = some url) (hget : get url = .ok r) :
    ((r.statusCode < 200 ∨ r.statusCode > 299) ↔
      ∃ c, GetMETAR query get unmarshal = some (.error (.unexpectedStatus c))) ∧
    ((r.statusCode < 200 ∨ r.statusCode > 299) →
      GetMETAR query get unmarshal = some (.error (.unexpectedStatus r.statusCode)) ∧
      (FetchError.unexpectedStatus r.statusCode).message =
        "unexpected status code: " ++ toString r.statusCode ∧
      (∀ (get2 : String → Except String HTTPResp)
          (unmarshal2 : String → Except String METARResponse) (r2 : HTTPResp),
        get2 url = .ok r2 → r2.statusCode = r.statusCode →
        GetMETAR query get2 unmarshal2 = GetMETAR query get unmarshal) ∧
      ∀ resp, GetMETAR query get unmarshal ≠ some (.ok resp)) := by
  have key := getMETAR_eq_fetchAndParse query url get unmarshal hurl
  have hfp := fetchAndParse_of_get url get unmarshal r hget
  constructor
  · constructor
    · intro hout
      exact ⟨r.statusCode, by rw [key, hfp, if_pos hout]⟩
    · rintro ⟨c, hc⟩
      by_contra hin
      rw [key, hfp, if_neg hin] at hc
      rcases hb : r.body with e | body
      · simp only [hb] at hc
        simp at hc
      · simp only [hb] at hc
        rcases hu : unmarshal body with e | resp <;> simp only [hu] at hc <;> simp at hc
  · intro hout
    refine ⟨by rw [key, hfp, if_pos hout], rfl, ?_, ?_⟩
    · intro get2 unmarshal2 r2 hg2 hsc
      have key2 := getMETAR_eq_fetchAndParse query url get2 unmarshal2 hurl
      have hfp2 := fetchAndParse_of_get url get2 unmarshal2 r2 hg2
      rw [key2, hfp2, if_pos (by rw [hsc]; exact hout), hsc, key, hfp, if_pos hout]
    · intro resp hcontra
      rw [key, hfp, if_pos hout] at hcontra
      simp at hcontra

/-- Witness for claim C2: a 404 response yields the unexpected-status error
carrying 404, whatever the body and the decoder would have said. -/
theorem getMETAR_unexpected_status_witness :
    ((404 : Int) < 200 ∨ (404 : Int) > 299) ∧
      GetMETAR emptyQuery (fun _ => .ok ⟨404, .ok "<response></response>"⟩)
          (fun _ => .error "decoder must not run") =
        some (.error (.unexpectedStatus 404)) := by
  have h := getMETAR_unexpected_status emptyQuery endpointMETAR
    (fun _ => .ok ⟨404, .ok "<response></response>"⟩)
    (fun _ => .error "decoder must not run") ⟨404, .ok "<response></response>"⟩ rfl rfl
  exact ⟨by norm_num, (h.2 (by norm_num)).1⟩

/-- Claim C9: with a successful status in `[200,299]` but a body the decoder
rejects, `GetMETAR` fails with the decode error and returns no partial
response value. -/
theorem getMETAR_decode_error (query : METARQuery) (url : String)
    (get : String → Except String HTTPResp)
    (unmarshal : String → Except String METARResponse) (r : HTTPResp)
    (body e : String)
    (hurl : buildEndpoint query = some url) (hget : get url = .ok r)
    (h1 : 200 ≤ r.statusCode) (h2 : r.statusCode ≤ 299)
    (hbody : r.body = .ok body) (hu : unmarshal body = .error e) :
    GetMETAR query get unmarshal = some (.error (.decode e)) ∧
    ∀ resp, GetMETAR query get unmarshal ≠ some (.ok resp) := by
  have key := getMETAR_eq_fetchAndParse query url get unmarshal hurl
  have hfp := fetchAndParse_of_get url get unmarshal r hget
  have hres : GetMETAR query get unmarshal = some (.error (.decode e)) := by
    rw [key, hfp, if_neg (by omega)]
    simp only [hbody, hu]
  refine ⟨hres, fun resp hcontra => ?_⟩
  rw [hres] at hcontra
  simp at hcontra

/-- Witness for claim C9: a 200 response whose body the decoder rejects. -/
theorem getMETAR_decode_error_witness :
    GetMETAR emptyQuery (fun _ => .ok ⟨200, .ok "this is not xml"⟩)
        (fun _ => .error "xml syntax error") =
      some (.error (.decode "xml syntax error")) :=
  (getMETAR_decode_error emptyQuery endpointMETAR
    (fun _ => .ok ⟨200, .ok "this is not xml"⟩) (fun _ => .error "xml syntax error")
    ⟨200, .ok "this is not xml"⟩ "this is not xml" "xml syntax error"
    rfl rfl (by norm_num) (by norm_num) rfl rfl).1

/-- Claim C6: a structurally successful fetch is never failed because of
error or warning strings embedded in the body: when the decoder yields a
response with one error string, one warning string and one record,
`GetMETAR` returns exactly that response — error list length 1, warning
list length 1, record list length 1 — and raises no call failure. -/
theorem getMETAR_embedded_errors_surfaced (query : METARQuery) (url : String)
    (get : String → Except String HTTPResp)
    (unmarshal : String → Except String METARResponse) (r : HTTPResp)
    (body : String) (resp : METARResponse)
    (hurl : buildEndpoint query = some url) (hget : get url = .ok r)
    (h1 : 200 ≤ r.statusCode) (h2 : r.statusCode ≤ 299)
    (hbody : r.body = .ok body) (hu : unmarshal body = .ok resp)
    (he : resp.Errors.length = 1) (hw : resp.Warnings.length = 1)
    (hm : resp.METARs.length = 1) :
    GetMETAR query get unmarshal = some (.ok resp) ∧
    resp.Errors.length = 1 ∧ resp.Warnings.length = 1 ∧ resp.METARs.length = 1 ∧
    ∀ err, GetMETAR query get unmarshal ≠ some (.error err) := by
  have key := getMETAR_eq_fetchAndParse query url get unmarshal hurl
  have hfp := fetchAndParse_of_get url get unmarshal r hget
  have hres : GetMETAR query get unmarshal = some (.ok resp) := by
    rw [key, hfp, if_neg (by omega)]
    simp only [hbody, hu]
  refine ⟨hres, he, hw, hm, fun err hcontra => ?_⟩
  rw [hres] at hcontra
  simp at hcontra

/-- A canned XML body with one error string, one warning string and one
data record, for the claim C6 witness. -/
def cannedBody : String :=
  "<response><errors><error>query must be constrained</error></errors>" ++
    "<warnings><warning>density altitude missing</warning></warnings>" ++
    "<data><METAR><raw_text>KLAX 120153Z 25006KT 10SM FEW015</raw_text></METAR></data>" ++
    "</response>"

/-- The parse result of `cannedBody`: one error, one warning, one record. -/
def cannedResponse : METARResponse :=
  ⟨["query must be constrained"], ["density altitude missing"],
    [{ (default : METAR) with
        RawText := "KLAX 120153Z 25006KT 10SM FEW015"
        StationID := "KLAX" }]⟩

/-- A decoder that accepts exactly `cannedBody`. -/
def cannedUnmarshal (s : String) : Except String METARResponse :=
  if s = cannedBody then .ok cannedResponse else .error "unexpected body"

/-- Witness for claim C6: a 200 response carrying `cannedBody` produces
`cannedResponse` — list lengths 1, 1, 1 — with no failure. -/
theorem getMETAR_embedded_errors_surfaced_witness :
    GetMETAR emptyQuery (fun _ => .ok ⟨200, .ok cannedBody⟩) cannedUnmarshal =
      some (.ok cannedResponse) ∧
    cannedResponse.Errors.length = 1 ∧ cannedResponse.Warnings.length = 1 ∧
    cannedResponse.METARs.length = 1 := by
  have h := getMETAR_embedded_errors_surfaced emptyQuery endpointMETAR
    (fun _ => .ok ⟨200, .ok cannedBody⟩) cannedUnmarshal ⟨200, .ok cannedBody⟩
    cannedBody cannedResponse rfl rfl (by norm_num) (by norm_num) rfl
    (by simp [cannedUnmarshal]) rfl rfl rfl
  exact ⟨h.1, h.2.1, h.2.2.1, h.2.2.2.1⟩

end AWC
